import Mathlib

/-!
Verification of the node-felica RC-S620S FeliCa reader implementation.

The development shallow-embeds the reader code: byte buffers are `List Nat`
(each element a byte value 0..255 produced by the ascii encoding, i.e. the JS
char code masked with 0xff), JS numbers are `Nat`/`Int` with explicit mod-256
arithmetic where the code masks, hex strings are `String` produced by the same
lowercase two-digit rendering as Buffer.prototype.toString with the hex
encoding, and promise-based control flow becomes explicit `Except`-valued
functions, with the transport and the card modelled as oracles supplying the
bytes the serial port would deliver.
-/

/-- felicaca_utils.js range: Array.from of the first n naturals. -/
def range (n : Nat) : List Nat := List.range n

/-- felicaca_utils.js read_number: reads len bytes at idx (to the end of the
buffer when len is 0), reverses them when byte_order is the string LE, and
folds them big-endian-wise (out = out*256 + byte).  Out-of-range JS buffer
access yields undefined (NaN after arithmetic); the claims only exercise
in-range reads, modelled with getD default 0. -/
def read_number (buffer : List Nat) (idx : Nat) (len : Nat) (byte_order : String) : Nat :=
  let end_idx := if len ≠ 0 then idx + len else buffer.length
  let extracted := (List.range' idx (end_idx - idx)).map (fun i => buffer.getD i 0)
  let extracted := if byte_order == "LE" then extracted.reverse else extracted
  (List.range len).foldl (fun out j => out * 256 + extracted.getD j 0) 0

/-- felicaca_utils.js int2strbinLE: emits length bytes of num, least
significant first (the loop appends num & 0xff then shifts num right 8). -/
def int2strbinLE : Nat → Nat → List Nat
  | _, 0 => []
  | num, Nat.succ l => num % 256 :: int2strbinLE (num / 256) l

/-- One lowercase hexadecimal digit. -/
def hexDigit (n : Nat) : Char :=
  if n < 10 then Char.ofNat (48 + n) else Char.ofNat (87 + n)

/-- One byte as two lowercase hexadecimal digits. -/
def byteHex (n : Nat) : String :=
  String.mk [hexDigit (n / 16 % 16), hexDigit (n % 16)]

/-- Buffer.prototype.toString with the hex encoding: the bytes of the buffer
rendered as a lowercase hexadecimal string. -/
def bufToHex (l : List Nat) : String :=
  String.join (l.map byteHex)

/-- The JS prefix test s.indexOf(p) === 0: p is a prefix of s, decided on the
character lists of the two strings. -/
def str_starts_with (s p : String) : Bool :=
  p.toList.isPrefixOf s.toList

namespace Rcs620s

/-- Rcs620s._calculate_checksum (part_000 lines 295-304): sums the bytes and
returns (-sum) & 0xff, i.e. the two's-complement of the sum mod 256. -/
def _calculate_checksum (buffer : List Nat) : Nat :=
  ((-(buffer.sum : Int)) % 256).toNat

/-- The check argument of _rw_command and of _read: either omitted/the empty
string (falsy in JS), a non-empty exact-hex string, or a predicate over the
received bytes. -/
inductive CheckArg where
  | empty : CheckArg
  | hex : String → CheckArg
  | func : (List Nat → Bool) → CheckArg

/-- The validator verdict check_ok computed at part_000 lines 434-440 of
_rw_command: a predicate is applied to the response body, an exact-hex string
is compared with the body rendered as hex.  When check is falsy the
declaration `let check_ok = false` inside the `if (check)` block never runs;
the verdict is modelled as false there (it is unused in that case). -/
def rw_check_verdict : CheckArg → List Nat → Bool
  | CheckArg.empty, _ => false
  | CheckArg.hex s, body => bufToHex body == s
  | CheckArg.func f, body => f body

/-- The final acceptance step of _rw_command (part_000 lines 433-446).  The
guard at line 442 reads `if (!check)`: it tests the truthiness of the check
ARGUMENT, not the computed check_ok verdict.  Consequently any supplied
validator accepts the body unconditionally, and an omitted validator always
cancels and rejects with check-failed.  The first component records whether
the cancel frame is sent. -/
def rw_check_stage : CheckArg → List Nat → Bool × Except String (List Nat)
  | CheckArg.empty, _ => (true, Except.error "check-failed")
  | CheckArg.hex _, body => (false, Except.ok body)
  | CheckArg.func _, body => (false, Except.ok body)

/-- One entry of the pending-read queue (the object pushed by _read at
part_000 lines 191-199). -/
structure ReadReq where
  time_in : Nat
  time_expire : Nat
  bytes_needed : Nat
  buffers : List (List Nat)
  check : CheckArg

/-- The mutable read state of the reader: the byte-accumulation buffer
_read_buffer and the pending-read queue _read_queue. -/
structure QState where
  read_buffer : List Nat
  read_queue : List ReadReq

/-- A settlement of the head request's promise emitted during one tick. -/
inductive Settle where
  | resolved : List Nat → Settle
  | rejected : String → Settle
deriving DecidableEq

/-- One tick of _read_timer (part_000 lines 120-167).  Returns the new state
and the settlements performed on the head request's promise.  Notes kept
faithful to the source:
- timeout branch (lines 127-131): ng_callback receives the string timeout,
  then the code runs `this._read_buffer.shift()` with the comment "delete the
  first item from the queues".  _read_buffer is a string or a Buffer, neither
  of which has a shift method, so this statement throws a TypeError inside the
  interval callback; the only statement it skips is the bare return.  Net
  effect: neither the queue nor the buffer changes, and the head entry stays
  queued.
- the emptiness test `if (!this._read_buffer)` is falsy for the initial empty
  string; a fully drained Buffer is truthy in JS but the step it enables takes
  0 bytes and appends an empty chunk, leaving every concatenation and counter
  unchanged, so the isEmpty model is observation-equivalent.
- on fulfilment with a failing check the code calls ng_callback with
  check-failed and then still calls ok_callback; on an already-settled promise
  the second call is a no-op, so the first settlement in the returned list is
  the one that takes effect. -/
def read_timer_tick (now : Nat) (s : QState) : QState × List Settle :=
  match s.read_queue with
  | [] => (s, [])
  | read_req :: rest =>
    if read_req.time_expire ≤ now then
      (s, [Settle.rejected "timeout"])
    else if s.read_buffer.isEmpty then
      (s, [])
    else
      let bytes_to_take :=
        if read_req.bytes_needed ≤ s.read_buffer.length then read_req.bytes_needed
        else s.read_buffer.length
      let req : ReadReq :=
        ⟨read_req.time_in, read_req.time_expire, read_req.bytes_needed - bytes_to_take,
          read_req.buffers ++ [s.read_buffer.take bytes_to_take], read_req.check⟩
      let buffer := s.read_buffer.drop bytes_to_take
      let out_buffer := req.buffers.flatten
      if req.bytes_needed = 0 then
        let check_ok :=
          match req.check with
          | CheckArg.empty => true
          | CheckArg.hex str => str == bufToHex out_buffer
          | CheckArg.func f => f out_buffer
        if check_ok then (⟨buffer, rest⟩, [Settle.resolved out_buffer])
        else (⟨buffer, rest⟩, [Settle.rejected "check-failed", Settle.resolved out_buffer])
      else (⟨buffer, req :: rest⟩, [])

/-- The bytes _rw_command writes before the payload (part_000 lines 367-385):
the preamble 00 00 FF, then for payloads of at most 255 bytes the length and
its two's complement, and otherwise the extended marker FF FF, the big-endian
2-byte length, and the checksum of buffer1.slice(2) - the slice taken from
offset 2 of the 7-byte preamble, i.e. over the bytes FF FF FF LEN_HI LEN_LO. -/
def rw_frame_preamble (len : Nat) : List Nat :=
  if len ≤ 255 then
    [0x00, 0x00, 0xff] ++ [len % 256, ((-(len : Int)) % 256).toNat]
  else
    let buffer1 := [0x00, 0x00, 0xff] ++ [0xff, 0xff] ++ [len / 256 % 256, len % 256]
    buffer1 ++ [_calculate_checksum (buffer1.drop 2)]

/-- The LCS value the claim specifies for the extended frame: the
two's-complement mod 256 of the 2-byte length field alone. -/
def claimed_extended_lcs (len : Nat) : Nat :=
  ((-((len / 256 % 256 + len % 256 : Nat) : Int)) % 256).toNat

/-- The envelope _card_command hands to _rw_command (part_000 lines 315-322):
D4 A0, the little-endian 2-byte embedded timeout (0xFFFF when the configured
timeout is at least 0x10000 / 2, else twice the configured timeout), one byte
holding command length + 1 (masked to a byte by the ascii encoding), then the
command bytes. -/
def card_command_envelope (timeout : Nat) (command : List Nat) : List Nat :=
  [0xd4, 0xa0] ++
    int2strbinLE (if 0x10000 / 2 ≤ timeout then 0xffff else timeout * 2) 2 ++
    [(command.length + 1) % 256] ++ command

/-- How _card_command settles (part_000 lines 323-334) as a function of the
_rw_command outcome: on success it resolves with the body minus its first 4
bytes, on failure it rejects with the tag ex-command-failed (the wrapped
error2 cause is dropped in this model). -/
def _card_command_result (rw : Except String (List Nat)) : Except String (List Nat) :=
  match rw with
  | Except.ok buffer => Except.ok (buffer.drop 4)
  | Except.error _ => Except.error "ex-command-failed"

/-- The validator closure built inside _request_service (part_000 lines
602-608): the reply must be exactly 12 bytes, start with 03 followed by the
idm, and its trailing 2 bytes must not be FF FF. -/
def request_service_check (idm : List Nat) (buf : List Nat) : Bool :=
  buf.length == 12 &&
    str_starts_with (bufToHex buf) (bufToHex ([0x03] ++ idm)) &&
    !(bufToHex (buf.drop 10) == "ffff")

/-- How _request_service settles (part_000 lines 592-615) as a function of the
_card_command outcome.  The check closure request_service_check is passed as a
SECOND argument to _card_command, but _card_command's parameter list (line
312) has only command: the closure is silently dropped and never applied, so
the outcome depends only on whether _card_command itself settled. -/
def _request_service (card_result : Except String (List Nat)) : Except String Unit :=
  match card_result with
  | Except.ok _ => Except.ok ()
  | Except.error _ => Except.error "request-service-failed"

/-- An observable card-facing action of the service/block reader: one
_request_service round-trip, or one single-block _read_without_encryption
round-trip for the given absolute block number. -/
inductive Ev where
  | reqService : Ev
  | readBlock : Nat → Ev
deriving DecidableEq

/-- felicaca_utils.js serial, specialised to tasks that produce byte buffers
and instrumented with the card-facing actions each task performs: tasks run
sequentially, the first rejection propagates and the remaining tasks are never
started (their actions do not occur), and on success the results are collected
in order. -/
def serial :
    List (List Ev × Except String (List Nat)) → List Ev × Except String (List (List Nat))
  | [] => ([], Except.ok [])
  | (evs, r) :: rest =>
    match r with
    | Except.error e => (evs, Except.error e)
    | Except.ok buf =>
      match serial rest with
      | (evs2, Except.ok results) => (evs ++ evs2, Except.ok (buf :: results))
      | (evs2, Except.error e) => (evs ++ evs2, Except.error e)

/-- Rcs620s._read_without_encryption2 (part_000 lines 638-672): sets the busy
flag, runs one _read_without_encryption task per block number block_number + i
for i below length sequentially via serial, and clears the busy flag in both
of serial's callbacks.  blockRead is the oracle giving each task's outcome:
the 16 content bytes (bytes 12..28 of the 28-byte card reply) on success.
Returns the actions performed, the busy flag on settlement, and the outcome
(Buffer.concat of the results on success, the tag
read-without-encryption2-task-error on failure, wrapped cause dropped). -/
def _read_without_encryption2 (block_number length : Nat)
    (blockRead : Nat → Except String (List Nat)) :
    List Ev × Bool × Except String (List Nat) :=
  match serial ((range length).map
      (fun i => ([Ev.readBlock (block_number + i)], blockRead (block_number + i)))) with
  | (evs, Except.ok results) => (evs, false, Except.ok results.flatten)
  | (evs, Except.error _) => (evs, false, Except.error "read-without-encryption2-task-error")

/-- Rcs620s.read_block (part_000 lines 675-691): performs _request_service
(whose settled outcome is the rs argument), and only on its success performs
_read_without_encryption2 for length blocks starting at block_number; failures
reject with the stage tag (wrapped causes dropped). -/
def read_block (rs : Except String Unit) (block_number length : Nat)
    (blockRead : Nat → Except String (List Nat)) :
    List Ev × Except String (List Nat) :=
  match rs with
  | Except.error _ => ([Ev.reqService], Except.error "request-service-failed")
  | Except.ok _ =>
    match _read_without_encryption2 block_number length blockRead with
    | (evs, _, Except.ok buf) => (Ev.reqService :: evs, Except.ok buf)
    | (evs, _, Except.error _) =>
      (Ev.reqService :: evs, Except.error "read-without-encryption2-failed")

/-- The service-descriptor dictionary passed to read_service.  service_code is
a JS string (none models an absent field, an empty list the empty string, both
falsy) and blocks a JS number (none absent, 0 falsy); processing is the
result shaper applied to the array of per-task buffers. -/
structure ServiceDict (α : Type) where
  service_code : Option (List Nat)
  blocks : Option Nat
  processing : List (List Nat) → α

/-- JS falsiness of the service_code field: absent or the empty string. -/
def falsy_code : Option (List Nat) → Bool
  | none => true
  | some s => s.isEmpty

/-- JS falsiness of the blocks field: absent or zero. -/
def falsy_blocks : Option Nat → Bool
  | none => true
  | some n => n == 0

/-- Rcs620s.read_service (part_000 lines 693-713).  The outer Except models
the SYNCHRONOUS throw of the plain string on a falsy service_code or blocks
field, raised before the promise is constructed and before any card-facing
action; otherwise the value pairs the card-facing actions performed with the
promise outcome.  The loop pushes one closure per i below blocks calling
read_block with block number i and LENGTH blocks (the whole block count is
passed as read_block's length argument on every iteration); serial runs them
sequentially and processing shapes the collected results on success. -/
def read_service {α : Type} (dict : ServiceDict α) (rs : Except String Unit)
    (blockRead : Nat → Except String (List Nat)) :
    Except String (List Ev × Except String α) :=
  if falsy_code dict.service_code || falsy_blocks dict.blocks then
    Except.error "expecting service_dict to be \x7bservice_code:xx, blocks:xx\x7d"
  else
    match serial ((range (dict.blocks.getD 0)).map
        (fun i => read_block rs i (dict.blocks.getD 0) blockRead)) with
    | (evs, Except.ok results) => Except.ok (evs, Except.ok (dict.processing results))
    | (evs, Except.error e) => Except.ok (evs, Except.error e)

/-- The behaviour claim C4 states for read_service: one _request_service, then
blocks 0 .. N-1 read once each in ascending order, and the shaper applied to
the list of the N block payloads. -/
def read_service_claim_shape {α : Type} (dict : ServiceDict α)
    (bc : Nat → List Nat) : List Ev × α :=
  (Ev.reqService :: (range (dict.blocks.getD 0)).map Ev.readBlock,
    dict.processing ((range (dict.blocks.getD 0)).map bc))

/-- The card-facing actions a settled read_service run performed. -/
def read_service_trace {α : Type} (r : Except String (List Ev × Except String α)) :
    List Ev :=
  match r with
  | Except.ok (evs, _) => evs
  | Except.error _ => []

/-- Rcs620s.SERVICES.SUICA.PROPERTIES (part_000 lines 728-738): service code
8B 00, one block, and a shaper reading the balance as the little-endian
2-byte integer at offset 11 of the first result (none when the result array
is empty, modelling the undefined return). -/
def SUICA_PROPERTIES : ServiceDict (Option Nat) :=
  ⟨some [0x8b, 0x00], some 1,
    fun results =>
      match results.head? with
      | none => none
      | some data => some (read_number data 11 2 "LE")⟩

/-- A card identity extracted from a successful poll (idm bytes 6..14, pmn
bytes 14..22 of the response). -/
structure CardIdentity where
  idm : List Nat
  pmn : List Nat
deriving DecidableEq

/-- The observable outcome of one polling call: the busy flag after the call
settles, how many _rw_command transactions were issued to the transport, and
the settlement. -/
structure PollOutcome where
  busy_after : Bool
  rw_commands_sent : Nat
  result : Except String (Option CardIdentity)

/-- Rcs620s.polling (part_000 lines 540-574): when the busy flag is set the
call rejects with the string busy immediately, issuing no transaction and
leaving the flag set; otherwise it sets the flag, issues exactly one
InListPassiveTarget transaction (rw is the oracle for its outcome), clears
the flag in both the success and the failure callback, and on success resolves
with the card identity when the response starts with D5 4B 01 01 12 01 and
with nothing otherwise; a transaction failure rejects with the tag
InListPassiveTarget-failed (wrapped cause dropped). -/
def polling (busy : Bool) (rw : Except String (List Nat)) : PollOutcome :=
  if busy then ⟨true, 0, Except.error "busy"⟩
  else
    match rw with
    | Except.ok buf =>
      ⟨false, 1,
        Except.ok
          (if str_starts_with (bufToHex buf) "d54b01011201" then
            some ⟨(buf.drop 6).take 8, (buf.drop 14).take 8⟩
          else none)⟩
    | Except.error _ => ⟨false, 1, Except.error "InListPassiveTarget-failed"⟩

end Rcs620s

/-- A pending read whose deadline (50) has already elapsed at time 100. -/
def reqA : Rcs620s.ReadReq := ⟨0, 50, 4, [], Rcs620s.CheckArg.empty⟩

/-- A later pending read, still within its deadline at time 100. -/
def reqB : Rcs620s.ReadReq := ⟨10, 500, 2, [], Rcs620s.CheckArg.empty⟩

/-- A read state with bytes accumulated and the expired request at the head. -/
def s0 : Rcs620s.QState := ⟨[9, 9], [reqA, reqB]⟩

/-- An 8-byte card idm. -/
def idm8 : List Nat := [1, 2, 3, 4, 5, 6, 7, 8]

/-- A 12-byte request-service reply prefixed 03 followed by idm8 whose
trailing 2 bytes are the service-not-present sentinel FF FF. -/
def ffff_reply : List Nat := [0x03, 1, 2, 3, 4, 5, 6, 7, 8, 0xaa, 0xff, 0xff]

/-- A two-block descriptor whose shaper returns the raw result array. -/
def dict2 : Rcs620s.ServiceDict (List (List Nat)) :=
  ⟨some [0x8b, 0x00], some 2, fun results => results⟩

/-- Block contents for the two-block descriptor: block n holds 16 copies of n. -/
def bc2 : Nat → List Nat := fun n => List.replicate 16 n

/-- A 16-byte block with the little-endian bytes E8 03 at offsets 11 and 12. -/
def bcW : Nat → List Nat := fun _ =>
  List.replicate 11 0 ++ [0xe8, 0x03] ++ List.replicate 3 0

/-- A descriptor whose service_code field is absent (falsy). -/
def dictBad : Rcs620s.ServiceDict Nat := ⟨none, some 3, fun _ => 0⟩

/-- C5: for every byte sequence b, _calculate_checksum b is a single byte in
[0, 255] and (sum b + _calculate_checksum b) mod 256 = 0. -/
theorem C5_checksum_property (b : List Nat) :
    Rcs620s._calculate_checksum b ≤ 255 ∧
      (b.sum + Rcs620s._calculate_checksum b) % 256 = 0 := by
  unfold Rcs620s._calculate_checksum
  constructor
  · omega
  · omega

/-- C1: the claim says a failing validator cancels the transaction and rejects
it with check-failed.  In the code the verdict computed from the validator is
false on this body, yet the final stage of _rw_command resolves with the body
and sends no cancel, because line 442 tests the truthiness of the check
argument instead of the verdict. -/
theorem C1_validator_ignored :
    Rcs620s.rw_check_verdict (Rcs620s.CheckArg.func (fun _ => false)) [1, 2, 3] = false ∧
      Rcs620s.rw_check_stage (Rcs620s.CheckArg.func (fun _ => false)) [1, 2, 3] =
        (false, Except.ok [1, 2, 3]) :=
  ⟨rfl, rfl⟩

/-- C2: the claim says an expired head request is removed from the pending-read
queue, leaving the accumulation buffer and later requests unaffected.  On a
state whose head request reqA has expired, one tick rejects the head with
timeout but leaves the whole state - including the head entry of the queue -
unchanged, because the code shifts the accumulation buffer (which has no shift
method, so the statement throws) instead of shifting the queue; the head is
never dequeued and the later request reqB is never serviced. -/
theorem C2_timeout_leaves_queue_head :
    Rcs620s.read_timer_tick 100 s0 = (s0, [Rcs620s.Settle.rejected "timeout"]) := rfl

/-- C6: the claim says the extended-frame length-checksum byte equals the
two's complement mod 256 of LEN_HI + LEN_LO.  For a payload of length 256
(LEN_HI = 01, LEN_LO = 00) the code instead checksums the slice from offset 2
of the preamble, the five bytes FF FF FF 01 00, and sends 02, while the
claimed value is 255. -/
theorem C6_extended_lcs_mismatch :
    Rcs620s.rw_frame_preamble 256 = [0x00, 0x00, 0xff, 0xff, 0xff, 0x01, 0x00, 0x02] ∧
      Rcs620s.claimed_extended_lcs 256 = 255 := by
  constructor
  · rfl
  · rfl

/-- C7: for every command of length L with L + 1 a byte and every configured
timeout t, the envelope _card_command sends to the transaction engine is
exactly D4 A0, the little-endian 2-byte encoding of min 0xFFFF (2 * t), the
single byte L + 1, and the command bytes; and on a successful transaction it
resolves with the response body minus its first 4 bytes. -/
theorem C7_card_command_envelope (t : Nat) (cmd body : List Nat)
    (h : cmd.length + 1 ≤ 255) :
    Rcs620s.card_command_envelope t cmd =
      0xd4 :: 0xa0 :: min 0xffff (2 * t) % 256 :: min 0xffff (2 * t) / 256 % 256 ::
        (cmd.length + 1) :: cmd ∧
      Rcs620s._card_command_result (Except.ok body) = Except.ok (body.drop 4) := by
  constructor
  · have hct : (if 0x10000 / 2 ≤ t then 0xffff else t * 2) = min 0xffff (2 * t) := by
      split <;> omega
    have hmod : (cmd.length + 1) % 256 = cmd.length + 1 := Nat.mod_eq_of_lt (by omega)
    unfold Rcs620s.card_command_envelope
    rw [hct, hmod]
    rfl
  · rfl

/-- Witness for C7 at t = 1000 and a one-byte command: the embedded timeout is
2000 = 0x07D0, encoded little-endian as D0 07. -/
theorem C7_card_command_envelope_witness :
    ([0x02] : List Nat).length + 1 ≤ 255 ∧
      (Rcs620s.card_command_envelope 1000 [0x02] =
        0xd4 :: 0xa0 :: min 0xffff (2 * 1000) % 256 :: min 0xffff (2 * 1000) / 256 % 256 ::
          (([0x02] : List Nat).length + 1) :: [0x02] ∧
        Rcs620s._card_command_result (Except.ok [9, 9, 9, 9, 5]) =
          Except.ok (([9, 9, 9, 9, 5] : List Nat).drop 4)) :=
  ⟨by decide, C7_card_command_envelope 1000 [0x02] [9, 9, 9, 9, 5] (by decide)⟩

/-- Helper: flattening a list of singletons is mapping. -/
theorem flatten_map_singleton {γ δ : Type} (l : List γ) (f : γ → δ) :
    (l.map (fun x => [f x])).flatten = l.map f := by
  induction l with
  | nil => rfl
  | cons x xs ih => simp [ih]

/-- Helper: serial over tasks that all resolve concatenates their action lists
in order and collects their results in order. -/
theorem serial_map_ok {β : Type} (l : List β) (f : β → List Rcs620s.Ev)
    (g : β → List Nat) :
    Rcs620s.serial (l.map (fun x => (f x, Except.ok (g x)))) =
      ((l.map f).flatten, Except.ok (l.map g)) := by
  induction l with
  | nil => rfl
  | cons x xs ih => simp [Rcs620s.serial, ih]

/-- Helper: _read_without_encryption2 with every block read resolving performs
the reads of blocks block_number .. block_number + len - 1 in ascending order,
clears the busy flag, and resolves with the blocks concatenated in order. -/
theorem rwe2_ok (bn len : Nat) (bc : Nat → List Nat) :
    Rcs620s._read_without_encryption2 bn len (fun n => Except.ok (bc n)) =
      ((List.range len).map (fun i => Rcs620s.Ev.readBlock (bn + i)), false,
        Except.ok (((List.range len).map (fun i => bc (bn + i))).flatten)) := by
  unfold Rcs620s._read_without_encryption2 range
  rw [serial_map_ok (List.range len) (fun i => [Rcs620s.Ev.readBlock (bn + i)])
    (fun i => bc (bn + i))]
  simp [flatten_map_singleton]

/-- Helper: read_block with a successful request_service and every block read
resolving performs one reqService action, then the len reads starting at
block_number in ascending order, and resolves with the concatenation. -/
theorem read_block_ok (bn len : Nat) (bc : Nat → List Nat) :
    Rcs620s.read_block (Except.ok ()) bn len (fun n => Except.ok (bc n)) =
      (Rcs620s.Ev.reqService ::
          (List.range len).map (fun i => Rcs620s.Ev.readBlock (bn + i)),
        Except.ok (((List.range len).map (fun i => bc (bn + i))).flatten)) := by
  unfold Rcs620s.read_block
  rw [rwe2_ok]

/-- Helper: the full shape of a read_service run on a non-falsy descriptor in
which request_service and every block read resolve: writing N for the block
count, the loop issues read_block with arguments (i, N) for each i below N, so
reqService occurs N times, call i reads blocks i .. i + N - 1 in order, and
the shaper is applied to the list whose i-th element is the concatenation of
blocks i .. i + N - 1. -/
theorem read_service_ok_shape {α : Type} (dict : Rcs620s.ServiceDict α)
    (bc : Nat → List Nat)
    (h1 : Rcs620s.falsy_code dict.service_code = false)
    (h2 : Rcs620s.falsy_blocks dict.blocks = false) :
    Rcs620s.read_service dict (Except.ok ()) (fun n => Except.ok (bc n)) =
      Except.ok
        (((List.range (dict.blocks.getD 0)).map (fun i =>
            Rcs620s.Ev.reqService ::
              (List.range (dict.blocks.getD 0)).map
                (fun j => Rcs620s.Ev.readBlock (i + j)))).flatten,
          Except.ok (dict.processing ((List.range (dict.blocks.getD 0)).map (fun i =>
            ((List.range (dict.blocks.getD 0)).map (fun j => bc (i + j))).flatten)))) := by
  unfold Rcs620s.read_service range
  rw [h1, h2]
  simp only [Bool.or_self, Bool.false_eq_true, if_false]
  simp only [read_block_ok]
  rw [serial_map_ok (List.range (dict.blocks.getD 0))
    (fun i => Rcs620s.Ev.reqService ::
      (List.range (dict.blocks.getD 0)).map (fun j => Rcs620s.Ev.readBlock (i + j)))
    (fun i => ((List.range (dict.blocks.getD 0)).map (fun j => bc (i + j))).flatten)]

/-- Helper: read_number at offset 11, length 2, little-endian, is the second
byte shifted left by 8 plus the first. -/
theorem read_number_le_11_2 (data : List Nat) :
    read_number data 11 2 "LE" = data.getD 12 0 * 256 + data.getD 11 0 := by
  simp [read_number, List.range', List.range_succ]

/-- C3: the claim says a 12-byte reply prefixed 03 idm with trailing FF FF
makes request_service fail with request-service-failed and prevents any block
read.  The validator written in _request_service does reject this reply, but
the code passes it as a second argument to the one-parameter _card_command, so
it is never applied: the call resolves successfully, and read_block therefore
proceeds to the block read. -/
theorem C3_sentinel_not_rejected :
    Rcs620s.request_service_check idm8 ffff_reply = false ∧
      Rcs620s._request_service (Except.ok ffff_reply) = Except.ok () ∧
      (Rcs620s.read_block (Rcs620s._request_service (Except.ok ffff_reply)) 0 1
          (fun _ => Except.ok (List.replicate 16 0))).1 =
        [Rcs620s.Ev.reqService, Rcs620s.Ev.readBlock 0] := by
  refine ⟨by decide, rfl, rfl⟩

/-- C4 counterexample: on the two-block descriptor dict2 the trace of
read_service differs from the trace the claim states (one request_service
followed by single reads of blocks 0 and 1): the code performs
request_service twice and reads blocks 0, 1 and then 1, 2. -/
theorem C4_counterexample_two_blocks :
    Rcs620s.read_service_trace
        (Rcs620s.read_service dict2 (Except.ok ()) (fun n => Except.ok (bc2 n))) ≠
      (Rcs620s.read_service_claim_shape dict2 bc2).1 := by
  decide

/-- C4 amended: for every non-falsy descriptor with block count N and every
run in which request_service and all block reads resolve, read_service issues
read_block(i, N) for each i below N sequentially - so request_service runs
once per call, call i reads blocks i .. i + N - 1 in ascending order - and
resolves with the shaper applied to the list whose i-th element is the
concatenation of blocks i .. i + N - 1; for N = 1 this is exactly the
originally claimed behaviour. -/
theorem C4_read_service_shape {α : Type} (dict : Rcs620s.ServiceDict α)
    (bc : Nat → List Nat)
    (h1 : Rcs620s.falsy_code dict.service_code = false)
    (h2 : Rcs620s.falsy_blocks dict.blocks = false) :
    Rcs620s.read_service dict (Except.ok ()) (fun n => Except.ok (bc n)) =
      Except.ok
        (((List.range (dict.blocks.getD 0)).map (fun i =>
            Rcs620s.Ev.reqService ::
              (List.range (dict.blocks.getD 0)).map
                (fun j => Rcs620s.Ev.readBlock (i + j)))).flatten,
          Except.ok (dict.processing ((List.range (dict.blocks.getD 0)).map (fun i =>
            ((List.range (dict.blocks.getD 0)).map (fun j => bc (i + j))).flatten)))) :=
  read_service_ok_shape dict bc h1 h2

/-- Witness for the amended C4 at the concrete two-block descriptor dict2. -/
theorem C4_read_service_shape_witness :
    Rcs620s.falsy_code dict2.service_code = false ∧
      Rcs620s.falsy_blocks dict2.blocks = false ∧
      Rcs620s.read_service dict2 (Except.ok ()) (fun n => Except.ok (bc2 n)) =
        Except.ok
          (((List.range (dict2.blocks.getD 0)).map (fun i =>
              Rcs620s.Ev.reqService ::
                (List.range (dict2.blocks.getD 0)).map
                  (fun j => Rcs620s.Ev.readBlock (i + j)))).flatten,
            Except.ok (dict2.processing ((List.range (dict2.blocks.getD 0)).map (fun i =>
              ((List.range (dict2.blocks.getD 0)).map (fun j => bc2 (i + j))).flatten)))) :=
  ⟨rfl, rfl, C4_read_service_shape dict2 bc2 rfl rfl⟩

/-- C8: a polling call issued while the busy flag is set rejects with busy
immediately, issues no transaction and leaves the flag set; a polling call
that does run clears the flag whatever the transaction outcome; and a
multi-block _read_without_encryption2 run clears the flag whatever its tasks'
outcomes. -/
theorem C8_busy_guard (rw : Except String (List Nat)) (bn len : Nat)
    (br : Nat → Except String (List Nat)) :
    Rcs620s.polling true rw = ⟨true, 0, Except.error "busy"⟩ ∧
      (Rcs620s.polling false rw).busy_after = false ∧
      (Rcs620s._read_without_encryption2 bn len br).2.1 = false := by
  refine ⟨rfl, ?_, ?_⟩
  · cases rw <;> rfl
  · rcases h : Rcs620s.serial ((range len).map
        (fun i => ([Rcs620s.Ev.readBlock (bn + i)], br (bn + i)))) with ⟨evs, r⟩
    cases r <;> simp [Rcs620s._read_without_encryption2, h]

/-- C9: a read_service run with the balance descriptor whose single 16-byte
block carries byte E8 at offset 11 and byte 03 at offset 12 performs one
request_service and one read of block 0 and resolves with balance 1000. -/
theorem C9_balance_shaping (bc : Nat → List Nat) (_h0 : (bc 0).length = 16)
    (h1 : (bc 0).getD 11 0 = 0xe8) (h2 : (bc 0).getD 12 0 = 0x03) :
    Rcs620s.read_service Rcs620s.SUICA_PROPERTIES (Except.ok ())
        (fun n => Except.ok (bc n)) =
      Except.ok ([Rcs620s.Ev.reqService, Rcs620s.Ev.readBlock 0],
        Except.ok (some 1000)) := by
  have hb : Rcs620s.SUICA_PROPERTIES.blocks.getD 0 = 1 := rfl
  have hr : List.range 1 = [0] := rfl
  rw [read_service_ok_shape Rcs620s.SUICA_PROPERTIES bc rfl rfl, hb, hr]
  rw [List.getD_eq_getElem?_getD] at h1 h2
  simp [Rcs620s.SUICA_PROPERTIES, read_number_le_11_2, h1, h2]

/-- Witness for C9 at a concrete 16-byte block with E8 03 at offsets 11, 12. -/
theorem C9_balance_shaping_witness :
    (bcW 0).length = 16 ∧ (bcW 0).getD 11 0 = 0xe8 ∧ (bcW 0).getD 12 0 = 0x03 ∧
      Rcs620s.read_service Rcs620s.SUICA_PROPERTIES (Except.ok ())
          (fun n => Except.ok (bcW n)) =
        Except.ok ([Rcs620s.Ev.reqService, Rcs620s.Ev.readBlock 0],
          Except.ok (some 1000)) :=
  ⟨by decide, by decide, by decide,
    C9_balance_shaping bcW (by decide) (by decide) (by decide)⟩

/-- C10: on a descriptor whose service_code is absent or falsy or whose blocks
field is absent or zero, read_service throws the plain guard string
synchronously (the outer error of the model), before any card-facing action
can occur. -/
theorem C10_descriptor_guard {α : Type} (dict : Rcs620s.ServiceDict α)
    (rs : Except String Unit) (br : Nat → Except String (List Nat))
    (h : (Rcs620s.falsy_code dict.service_code || Rcs620s.falsy_blocks dict.blocks) = true) :
    Rcs620s.read_service dict rs br =
      Except.error "expecting service_dict to be \x7bservice_code:xx, blocks:xx\x7d" := by
  simp [Rcs620s.read_service, h]

/-- Witness for C10 at a descriptor with an absent service_code. -/
theorem C10_descriptor_guard_witness :
    (Rcs620s.falsy_code dictBad.service_code || Rcs620s.falsy_blocks dictBad.blocks) = true ∧
      Rcs620s.read_service dictBad (Except.ok ()) (fun _ => Except.ok []) =
        Except.error "expecting service_dict to be \x7bservice_code:xx, blocks:xx\x7d" :=
  ⟨rfl, C10_descriptor_guard dictBad (Except.ok ()) (fun _ => Except.ok []) rfl⟩
